import Mathlib

/-!
Formal model of the host side of the pyjava bridge (`pyjava/__init__.py`)
and theorems checking the specification's claims about its wire codec,
value marshaller, dispatch loop and handle caches.

Conventions of the embedding:
* the two byte streams are `List Char` values (the protocol is text,
  latin-1 encoded, one byte per character);
* python `int` is `Int`; python `float` is modelled as `ℚ`, which is exact
  for every value the claims exercise (IEEE bit patterns are out of scope);
* the module-level mutable state (`_java_popen` and the four handle
  caches) is an explicit `SessionState` record threaded through the
  modelled operations, and a python function that can raise returns an
  `Except` value (or carries the raised error in its result record);
* reading from the child process is modelled on the remaining response
  stream: `read(n)` yields `take n` / `drop n`, which returns fewer than
  `n` characters exactly when the stream has ended, as a pipe does.
-/

namespace PyJava

/-- `_DIGIT_CHARS = '0123456789abcdefghijklmnopqrstuvwxyz'`. -/
def DIGIT_CHARS : List Char := "0123456789abcdefghijklmnopqrstuvwxyz".toList

/-- `INTEGER_MAX_VALUE = (1 << 31) - 1`. -/
def INTEGER_MAX_VALUE : Nat := (1 <<< 31) - 1

/-- The `while i and bits_written < bit_size` loop of `_int_to_str`:
emits the hex digit `_DIGIT_CHARS[i - (i >> 4 << 4)]` of the running value
and shifts, so digits come out least significant first (the source then
reverses the accumulated list). -/
def int_to_str_loop (i bits_written bit_size : Nat) : List Char :=
  if h : i ≠ 0 ∧ bits_written < bit_size then
    DIGIT_CHARS.getD (i - (i >>> 4 <<< 4)) '?' ::
      int_to_str_loop (i >>> 4) (bits_written + 4) bit_size
  else
    []
termination_by bit_size - bits_written
decreasing_by omega

/-- python `str.zfill`: left-pad with zeros to the given width. -/
def zfill (s : List Char) (width : Nat) : List Char :=
  List.replicate (width - s.length) '0' ++ s

/-- `_int_to_str(i, bit_size)`: two's-complement adjust negative values by
`1 << bit_size`, emit hex digits, reverse, and `zfill(bit_size >> 2)`.
(The model agrees with the source for `-2^bit_size ≤ i`, which covers every
value the source ever encodes.) -/
def int_to_str (i : Int) (bit_size : Nat) : List Char :=
  let u : Int := if i < 0 then i + ((1 <<< bit_size : Nat) : Int) else i
  zfill (int_to_str_loop u.toNat 0 bit_size).reverse (bit_size >>> 2)

/-- Value of one hexadecimal digit as accepted by python `int(s, 16)`
(48–57, 97–102 and 65–70 are the character codes of the digits, the
lowercase and uppercase hex letters). -/
def hexDigitVal (c : Char) : Option Nat :=
  if 48 ≤ c.toNat ∧ c.toNat ≤ 57 then some (c.toNat - 48)
  else if 97 ≤ c.toNat ∧ c.toNat ≤ 102 then some (c.toNat - 87)
  else if 65 ≤ c.toNat ∧ c.toNat ≤ 70 then some (c.toNat - 55)
  else none

/-- Accumulating left-to-right hex parse: the value of the digits already
seen is `acc`; a non-digit character makes the whole parse fail. -/
def parseHexCore (acc : Nat) : List Char → Option Nat
  | [] => some acc
  | c :: rest =>
    match hexDigitVal c with
    | none => none
    | some d => parseHexCore (acc * 16 + d) rest

/-- Model of python `int(s, 16)` on the strings this wire carries: the
empty string raises (`none`), otherwise every character must be a hex
digit.  (The sign/whitespace/underscore forms `int` also accepts never
occur in this protocol, whose fields are emitted by `_int_to_str`.) -/
def parseHex (s : List Char) : Option Nat :=
  match s with
  | [] => none
  | _ :: _ => parseHexCore 0 s

/-- The exceptions the modelled fragment can raise. -/
inductive PyError
  | valueError (msg : String)
  | javaException (type : List Char) (message : List Char)
deriving DecidableEq, Repr

/-- `_read_int()`: `int(popen.stdout.read(8), 16)`, then reinterpret values
above `INTEGER_MAX_VALUE` as negative by subtracting `1 << 32`.  The second
component is the stream that remains after the `read(8)`; at end of stream
`read(8)` returns whatever is left (possibly fewer than 8 characters) and
`int` is applied to that. -/
def read_int (stream : List Char) : Except PyError Int × List Char :=
  (match parseHex (stream.take 8) with
   | none => .error (.valueError "invalid literal for int() with base 16")
   | some v =>
     .ok (if v > INTEGER_MAX_VALUE then (v : Int) - ((1 <<< 32 : Nat) : Int) else (v : Int)),
   stream.drop 8)

/-- `_read_str()`: `popen.stdout.read(_read_int())`.  A failure of the
length read propagates; python `read` with a negative argument reads to the
end of the stream. -/
def read_str (stream : List Char) : Except PyError (List Char) × List Char :=
  match read_int stream with
  | (.error e, rest) => (.error e, rest)
  | (.ok n, rest) =>
    if n < 0 then (.ok rest, [])
    else (.ok (rest.take n.toNat), rest.drop n.toNat)

/-- The frame `_read_str` consumes (and `_write_str` emits): a 32-bit
length field followed by that many characters. -/
def str_frame (s : List Char) : List Char :=
  int_to_str (s.length : Int) 32 ++ s

/-- `ClassProxy`: a class handle, `{name, object_index}`.  (Registration of
a freshly constructed proxy into the caches, which `__init__` performs, is
modelled at each construction site.) -/
structure ClassProxy where
  name : String
  object_index : Int
deriving DecidableEq, Repr

/-- `MethodProxy`: a method handle with its owner, name, remote index and
declared parameter types. -/
structure MethodProxy where
  owner : ClassProxy
  name : String
  object_index : Int
  types : List ClassProxy
deriving DecidableEq, Repr

/-- `ObjectProxy`: a remote object handle with its lazily resolved class. -/
structure ObjectProxy where
  object_index : Int
  klass : Option ClassProxy
deriving DecidableEq, Repr

def jbyte : ClassProxy := ⟨"byte", -1⟩

def jboolean : ClassProxy := ⟨"boolean", -2⟩

def jshort : ClassProxy := ⟨"short", -3⟩

def jchar : ClassProxy := ⟨"char", -4⟩

def jint : ClassProxy := ⟨"int", -5⟩

def jfloat : ClassProxy := ⟨"float", -6⟩

def jlong : ClassProxy := ⟨"long", -7⟩

def jdouble : ClassProxy := ⟨"double", -8⟩

def jObject : ClassProxy := ⟨"java.lang.Object", -9⟩

def jString : ClassProxy := ⟨"java.lang.String", -10⟩

def jClass : ClassProxy := ⟨"java.lang.Class", -11⟩

/-- `_DEFAULT_CLASSES`: the built-in classes keyed by name. -/
def DEFAULT_CLASSES : List (String × ClassProxy) :=
  [(jbyte.name, jbyte), (jboolean.name, jboolean), (jshort.name, jshort),
   (jchar.name, jchar), (jint.name, jint), (jfloat.name, jfloat),
   (jlong.name, jlong), (jdouble.name, jdouble), (jObject.name, jObject),
   (jString.name, jString), (jClass.name, jClass)]

/-- `AbstractObjectProxy.__eq__` between two proxies compares their
`object_index` fields. -/
def abstractEqProxy (a b : ClassProxy) : Bool :=
  a.object_index == b.object_index

/-- python `n in (c₁, c₂, …)` where `n` is an `int` and the `cᵢ` are
proxies: `int.__eq__` returns NotImplemented, so python falls back to the
reflected `AbstractObjectProxy.__eq__`, which compares `n` with each
proxy's `object_index`. -/
def intInProxyTuple (n : Int) (cs : List ClassProxy) : Bool :=
  cs.any fun c => c.object_index == n

/-- A python number: an `int` or a `float` (floats modelled exactly as
rationals). -/
inductive PyNum
  | i (n : Int)
  | f (q : ℚ)
deriving DecidableEq, Repr

/-- python `float()` applied to a number. -/
def pyFloatOf : PyNum → ℚ
  | .i n => (n : ℚ)
  | .f q => q

/-- python `int()` applied to a number: truncation toward zero. -/
def pyIntOf : PyNum → Int
  | .i n => n
  | .f q => if q < 0 then ⌈q⌉ else ⌊q⌋

/-- A host value passed as a call argument, one constructor per
`isinstance` arm of `_pyobject_to_jobject` (`other` is any further type,
which the source rejects). -/
inductive PyObject
  | classProxy (c : ClassProxy)
  | objectProxy (o : ObjectProxy)
  | methodProxy (m : MethodProxy)
  | primitiveProxy (type_index : Int) (value : PyNum)
  | arbitraryTemporaryProxy (ix : Int)
  | str (s : String)
  | int (n : Int)
  | float (q : ℚ)
  | other (type_name : String)
deriving DecidableEq, Repr

/-- The proxy kinds `_pyobject_to_jobject` can produce. -/
inductive JObject
  | classProxy (c : ClassProxy)
  | objectProxy (o : ObjectProxy)
  | methodProxy (m : MethodProxy)
  | primitiveProxy (type_index : Int) (value : PyNum)
  | arbitraryTemporaryProxy (ix : Int)
deriving DecidableEq, Repr

/-- Outcome of `_pyobject_to_jobject`: a proxy returned directly, a
CREATE_STRING request for a string argument, or a raised `ValueError`.
(Python renders the message with `f-string` interpolation of `type(obj)`;
the model keeps just the type name.) -/
inductive MarshalResult
  | pure (j : JObject)
  | createString (s : String)
  | error (msg : String)
deriving DecidableEq, Repr

/-- The numeric arm of `_pyobject_to_jobject` (`isinstance(obj, (int,
float))`): branch on the declared parameter type exactly as the source
does. -/
def pyobject_to_jobject_numeric (v : PyNum) (is_int : Bool) (type_name : String)
    (preferred_type : Option ClassProxy) : MarshalResult :=
  match preferred_type with
  | none =>
    .pure (.primitiveProxy (if is_int then jint.object_index else jdouble.object_index) v)
  | some pt =>
    if abstractEqProxy pt jObject then
      .pure (.primitiveProxy (if is_int then jint.object_index else jdouble.object_index) v)
    else if intInProxyTuple pt.object_index [jfloat, jdouble] then
      .pure (.primitiveProxy pt.object_index (.f (pyFloatOf v)))
    else if 0 > pt.object_index ∧ pt.object_index > jdouble.object_index then
      .pure (.primitiveProxy pt.object_index (.i (pyIntOf v)))
    else
      .error ("Currently unsupported type: " ++ type_name)

/-- `_pyobject_to_jobject(obj, preferred_type)`. -/
def pyobject_to_jobject (obj : PyObject) (preferred_type : Option ClassProxy) :
    MarshalResult :=
  match obj with
  | .classProxy c =>
    if c.object_index < 0 then .pure (.arbitraryTemporaryProxy (c.object_index - 8))
    else .pure (.classProxy c)
  | .objectProxy o => .pure (.objectProxy o)
  | .methodProxy m => .pure (.methodProxy m)
  | .primitiveProxy t v => .pure (.primitiveProxy t v)
  | .arbitraryTemporaryProxy ix => .pure (.arbitraryTemporaryProxy ix)
  | .str s => .createString s
  | .int n => pyobject_to_jobject_numeric (.i n) true "int" preferred_type
  | .float q => pyobject_to_jobject_numeric (.f q) false "float" preferred_type
  | .other tn => .error ("Currently unsupported type: " ++ tn)

/-- The module-level mutable state: `_java_popen` (is a session live) and
the four handle caches `_loaded_classes`, `_loaded_classes_by_id`,
`_loaded_methods`, `_loaded_objects`.  Dictionaries are association lists
where the most recent binding of a key comes first; the method-cache key
`(ClassProxy, name)` hashes and compares by `(object_index, name)` because
`AbstractObjectProxy` defines `__hash__`/`__eq__` on `object_index`. -/
structure SessionState where
  java_popen : Bool
  loaded_classes : List (String × ClassProxy)
  loaded_classes_by_id : List (Int × ClassProxy)
  loaded_methods : List ((Int × String) × MethodProxy)
  loaded_objects : List (Int × ObjectProxy)
deriving DecidableEq, Repr

/-- The state after the SHUTDOWN arm of the dispatch loop: `_java_popen =
None` and all four caches cleared. -/
def clearedSession : SessionState :=
  ⟨false, [], [], [], []⟩

/-- Dictionary lookup on an association list (first binding wins). -/
def alookup {α β : Type} [DecidableEq α] : List (α × β) → α → Option β
  | [], _ => none
  | (k, v) :: rest, key => if k = key then some v else alookup rest key

/-- Dictionary assignment `d[k] = v` on an association list. -/
def dictInsert {α β : Type} (l : List (α × β)) (k : α) (v : β) : List (α × β) :=
  (k, v) :: l

/-- Dictionary `d.pop(k, None)` on an association list. -/
def dictErase {α β : Type} [DecidableEq α] (l : List (α × β)) (k : α) :
    List (α × β) :=
  l.filter fun p => decide (p.1 ≠ k)

/-- The response tags of `J2PyCommand` (values 0–6). -/
inductive J2PyCommand
  | SHUTDOWN
  | PRINT_OUT
  | INT_RESULT
  | ERROR_RESULT
  | VOID_RESULT
  | STRING_RESULT
  | INT_STRING_PAIR_RESULT
deriving DecidableEq, Repr

/-- `J2PyCommand(value)`: raises `ValueError` (`none`) outside 0–6. -/
def j2pyCommandOfValue : Nat → Option J2PyCommand
  | 0 => some .SHUTDOWN
  | 1 => some .PRINT_OUT
  | 2 => some .INT_RESULT
  | 3 => some .ERROR_RESULT
  | 4 => some .VOID_RESULT
  | 5 => some .STRING_RESULT
  | 6 => some .INT_STRING_PAIR_RESULT
  | _ => none

/-- Value of one digit as accepted by python `int(c, 36)` (codes 48–57 are
the decimal digits, 97–122 and 65–90 the lower- and uppercase letters). -/
def base36DigitVal (c : Char) : Option Nat :=
  if 48 ≤ c.toNat ∧ c.toNat ≤ 57 then some (c.toNat - 48)
  else if 97 ≤ c.toNat ∧ c.toNat ≤ 122 then some (c.toNat - 87)
  else if 65 ≤ c.toNat ∧ c.toNat ≤ 90 then some (c.toNat - 55)
  else none

/-- What `_execute_command` returns to its caller once the dispatch loop
reaches a terminal tag. -/
inductive CmdResult
  | none
  | int (i : Int)
  | str (s : List Char)
  | intStr (i : Int) (s : List Char)
deriving DecidableEq, Repr

/-- Everything the dispatch loop leaves behind: the session state, the
unconsumed response stream, the PRINT_OUT payloads surfaced to the user in
order, and the returned result or raised exception. -/
structure LoopOut where
  state : SessionState
  stream : List Char
  printed : List (List Char)
  result : Except PyError CmdResult
deriving Repr

/-- `fromstr.split(': ', 1)` as used by `JavaException.__init__`: the text
before and after the first `': '`, or `none` when the separator is absent
(in which case the unpacking in the source raises `ValueError`). -/
def splitColonSpace : List Char → Option (List Char × List Char)
  | [] => none
  | ':' :: ' ' :: rest => some ([], rest)
  | c :: rest =>
    match splitColonSpace rest with
    | none => none
    | some (a, b) => some (c :: a, b)

theorem read_str_stream_length_le (stream : List Char) :
    (read_str stream).2.length ≤ stream.length := by
  rw [read_str, read_int]
  cases hp : parseHex (stream.take 8) with
  | none =>
    simp
  | some v =>
    split
    next e rest heq =>
      simp at heq
    next n rest heq =>
      simp only [Prod.mk.injEq] at heq
      obtain ⟨h1, h2⟩ := heq
      subst h2
      split
      · simp
      · simp only [List.length_drop]
        omega

/-- The response-reading loop at the tail of `_execute_command`: read one
tag character (an empty read is treated as SHUTDOWN), dispatch on it, and
keep looping across PRINT_OUT frames.  The SHUTDOWN arm sets `_java_popen
= None` and clears all four caches; the ERROR_RESULT arm raises
`JavaException` built from the `"kind: message"` payload and touches no
state. -/
def response_loop (st : SessionState) (stream : List Char) : LoopOut :=
  match stream with
  | [] => ⟨clearedSession, [], [], .ok .none⟩
  | c :: rest =>
    match base36DigitVal c with
    | none => ⟨st, rest, [], .error (.valueError "invalid literal for int() with base 36")⟩
    | some v =>
      match j2pyCommandOfValue v with
      | none => ⟨st, rest, [], .error (.valueError "is not a valid J2PyCommand")⟩
      | some J2PyCommand.ERROR_RESULT =>
        match read_str rest with
        | (.error e, rest1) => ⟨st, rest1, [], .error e⟩
        | (.ok s, rest1) =>
          match splitColonSpace s with
          | none => ⟨st, rest1, [], .error (.valueError "not enough values to unpack")⟩
          | some (t, m) => ⟨st, rest1, [], .error (.javaException t m)⟩
      | some J2PyCommand.INT_RESULT =>
        match read_int rest with
        | (.error e, rest1) => ⟨st, rest1, [], .error e⟩
        | (.ok i, rest1) => ⟨st, rest1, [], .ok (.int i)⟩
      | some J2PyCommand.VOID_RESULT => ⟨st, rest, [], .ok .none⟩
      | some J2PyCommand.SHUTDOWN => ⟨clearedSession, rest, [], .ok .none⟩
      | some J2PyCommand.PRINT_OUT =>
        match h : read_str rest with
        | (.error e, rest1) => ⟨st, rest1, [], .error e⟩
        | (.ok s, rest1) =>
          let out := response_loop st rest1
          ⟨out.state, out.stream, s :: out.printed, out.result⟩
      | some J2PyCommand.STRING_RESULT =>
        match read_str rest with
        | (.error e, rest1) => ⟨st, rest1, [], .error e⟩
        | (.ok s, rest1) => ⟨st, rest1, [], .ok (.str s)⟩
      | some J2PyCommand.INT_STRING_PAIR_RESULT =>
        match read_int rest with
        | (.error e, rest1) => ⟨st, rest1, [], .error e⟩
        | (.ok i, rest1) =>
          match read_str rest1 with
          | (.error e, rest2) => ⟨st, rest2, [], .error e⟩
          | (.ok s, rest2) => ⟨st, rest2, [], .ok (.intStr i s)⟩
termination_by stream.length
decreasing_by
  have hle := read_str_stream_length_le rest
  rw [h] at hle
  simp only [List.length_cons] at *
  omega

/-- What `class_for_name(name)` does next, given the current state: serve
a built-in, serve the cache, or issue a GET_CLASS request. -/
inductive ClassForNameResult
  | defaultHit (c : ClassProxy)
  | cacheHit (c : ClassProxy)
  | sendGetClass (name : String)
deriving DecidableEq, Repr

/-- `class_for_name(name)`: built-ins first, then `_loaded_classes`, else
a GET_CLASS request. -/
def class_for_name (st : SessionState) (name : String) : ClassForNameResult :=
  match alookup DEFAULT_CLASSES name with
  | some c => .defaultHit c
  | none =>
    match alookup st.loaded_classes name with
    | some c => .cacheHit c
    | none => .sendGetClass name

/-- The payload `_execute_command(GET_METHOD, …)` writes: class id, method
name, and the parameter-type ids in order. -/
structure GetMethodRequest where
  class_index : Int
  name : String
  type_ids : List Int
deriving DecidableEq, Repr

/-- `ClassProxy.get_method(name, *types)`: serve `_loaded_methods[(self,
name)]` on a hit; otherwise send GET_METHOD (the remote replies with
`remote_index`) and register the new `MethodProxy` under `(self, name)`,
as `MethodProxy.__init__` does.  Returns the proxy, the updated state, and
the request sent (if any). -/
def ClassProxy.get_method (st : SessionState) (self : ClassProxy) (name : String)
    (types : List ClassProxy) (remote_index : Int) :
    MethodProxy × SessionState × Option GetMethodRequest :=
  match alookup st.loaded_methods (self.object_index, name) with
  | some m => (m, st, none)
  | none =>
    let m : MethodProxy := ⟨self, name, remote_index, types⟩
    (m,
     { st with loaded_methods := dictInsert st.loaded_methods (self.object_index, name) m },
     some ⟨self.object_index, name, types.map (·.object_index)⟩)

/-- Outcome of a `__del__` run: the state it leaves, the id a FREE_OBJECT
request was written for (if one was written at all), and whether an
exception escaped to the caller. -/
structure DelOut where
  state : SessionState
  free_requested : Option Int
  raised : Bool
deriving Repr

/-- The guarded free attempt every `__del__` ends with: only `if
_java_popen is not None`, run `_execute_command(FREE_OBJECT, ix)` inside
`try/except Exception: pass`, so the response is processed (its state
effects persist) but any raised fault is swallowed. -/
def free_object_attempt (st : SessionState) (ix : Int) (stdout : List Char) :
    DelOut :=
  if st.java_popen then
    let out := response_loop st stdout
    match out.result with
    | .error _e => ⟨out.state, some ix, false⟩
    | .ok _r => ⟨out.state, some ix, false⟩
  else ⟨st, none, false⟩

/-- `AbstractObjectProxy.__del__`: just the guarded FREE_OBJECT attempt. -/
def AbstractObjectProxy.del (st : SessionState) (object_index : Int)
    (stdout : List Char) : DelOut :=
  free_object_attempt st object_index stdout

/-- `ClassProxy.__del__`: pop both class caches (each in its own
`try/except`), then the guarded FREE_OBJECT attempt. -/
def ClassProxy.del (st : SessionState) (self : ClassProxy) (stdout : List Char) :
    DelOut :=
  free_object_attempt
    { st with
      loaded_classes := dictErase st.loaded_classes self.name,
      loaded_classes_by_id := dictErase st.loaded_classes_by_id self.object_index }
    self.object_index stdout

/-- `MethodProxy.__del__`: pop `_loaded_methods[(owner, name)]`, then the
guarded FREE_OBJECT attempt. -/
def MethodProxy.del (st : SessionState) (self : MethodProxy) (stdout : List Char) :
    DelOut :=
  free_object_attempt
    { st with
      loaded_methods := dictErase st.loaded_methods (self.owner.object_index, self.name) }
    self.object_index stdout

/-- `ObjectProxy.__del__`: pop `_loaded_objects[self.object_index]`, then
the guarded FREE_OBJECT attempt. -/
def ObjectProxy.del (st : SessionState) (self : ObjectProxy) (stdout : List Char) :
    DelOut :=
  free_object_attempt
    { st with loaded_objects := dictErase st.loaded_objects self.object_index }
    self.object_index stdout

/-- One marshalled argument as it reaches the INVOKE request's argument
block: a proxy written directly, or the remote string object created by
CREATE_STRING for a string argument. -/
inductive SendArg
  | obj (j : JObject)
  | createdString (s : String)
deriving DecidableEq, Repr

/-- The `for (arg, type) in zip(args, self.types)` marshalling loop of
`invoke_static`/`invoke_instance`: arguments are paired positionally with
the declared parameter types (so `zip` drops trailing arguments), each is
passed through `_pyobject_to_jobject`, and a raised `ValueError` aborts
the whole call before any INVOKE request is written. -/
def buildSendArgs : List (PyObject × ClassProxy) → Except String (List SendArg)
  | [] => .ok []
  | (a, t) :: rest =>
    match pyobject_to_jobject a (some t) with
    | .error e => .error e
    | .pure j =>
      match buildSendArgs rest with
      | .error e => .error e
      | .ok l => .ok (.obj j :: l)
    | .createString s =>
      match buildSendArgs rest with
      | .error e => .error e
      | .ok l => .ok (.createdString s :: l)

/-- `MethodProxy.invoke_static(*args)` up to the INVOKE_STATIC_METHOD
request: on success the request carries the method id, the argument count
`len(send_args)`, and the marshalled arguments. -/
def MethodProxy.invoke_static (self : MethodProxy) (args : List PyObject) :
    Except String (Int × Nat × List SendArg) :=
  match buildSendArgs (args.zip self.types) with
  | .error e => .error e
  | .ok send_args => .ok (self.object_index, send_args.length, send_args)

/-- `MethodProxy.invoke_instance(on, *args)` up to the INVOKE_METHOD
request: method id, receiver id, argument count, marshalled arguments. -/
def MethodProxy.invoke_instance (self : MethodProxy) (on_index : Int)
    (args : List PyObject) : Except String (Int × Int × Nat × List SendArg) :=
  match buildSendArgs (args.zip self.types) with
  | .error e => .error e
  | .ok send_args => .ok (self.object_index, on_index, send_args.length, send_args)

theorem hexDigitVal_getD (d : Nat) (hd : d < 16) :
    hexDigitVal (DIGIT_CHARS.getD d '?') = some d := by
  interval_cases d <;> decide

theorem int_to_str_loop_eq_digits (j : Nat) :
    ∀ u bits_written bit_size : Nat, u < 16 ^ j → bits_written + 4 * j ≤ bit_size →
      int_to_str_loop u bits_written bit_size
        = (Nat.digits 16 u).map (fun d => DIGIT_CHARS.getD d '?') := by
  induction j with
  | zero =>
    intro u bw bs hu _
    interval_cases u
    rw [int_to_str_loop]
    simp
  | succ j ih =>
    intro u bw bs hu hbs
    by_cases h0 : u = 0
    · subst h0
      rw [int_to_str_loop]
      simp
    · rw [int_to_str_loop, dif_pos ⟨h0, by omega⟩]
      have hsr : u >>> 4 = u / 16 := by
        rw [Nat.shiftRight_eq_div_pow]
      have hsl : u >>> 4 <<< 4 = u / 16 * 16 := by
        rw [hsr, Nat.shiftLeft_eq]
      have hmod : u - u >>> 4 <<< 4 = u % 16 := by
        rw [hsl]; omega
      have hdiv : u / 16 < 16 ^ j := by
        have h16 : u < 16 ^ j * 16 := by
          rw [← pow_succ]; exact hu
        omega
      rw [hmod, hsr, ih (u / 16) (bw + 4) bs hdiv (by omega)]
      rw [Nat.digits_def' (by norm_num : (1 : Nat) < 16) (Nat.pos_of_ne_zero h0)]
      simp

theorem parseHexCore_append (acc : Nat) (xs ys : List Char) :
    parseHexCore acc (xs ++ ys)
      = match parseHexCore acc xs with
        | none => none
        | some a => parseHexCore a ys := by
  induction xs generalizing acc with
  | nil => simp [parseHexCore]
  | cons c rest ih =>
    cases h : hexDigitVal c with
    | none => simp [parseHexCore, h]
    | some d => simp [parseHexCore, h, ih]

theorem parseHexCore_mapped_digits (ds : List Nat) :
    ∀ acc : Nat, (∀ d ∈ ds, d < 16) →
      parseHexCore acc ((ds.map fun d => DIGIT_CHARS.getD d '?').reverse)
        = some (acc * 16 ^ ds.length + Nat.ofDigits 16 ds) := by
  induction ds with
  | nil =>
    intro acc _
    simp [parseHexCore, Nat.ofDigits_nil]
  | cons d tail ih =>
    intro acc hmem
    have hd : d < 16 := hmem d (by simp)
    rw [List.map_cons, List.reverse_cons, parseHexCore_append,
      ih acc (fun x hx => hmem x (by simp [hx]))]
    show parseHexCore (acc * 16 ^ tail.length + Nat.ofDigits 16 tail)
        [DIGIT_CHARS.getD d '?'] = _
    simp only [parseHexCore, hexDigitVal_getD d hd, Nat.ofDigits_cons, List.length_cons]
    congr 1
    ring

theorem parseHexCore_zeros (k : Nat) (ds : List Char) :
    parseHexCore 0 (List.replicate k '0' ++ ds) = parseHexCore 0 ds := by
  induction k with
  | zero => simp
  | succ k ih =>
    have h0 : hexDigitVal '0' = some 0 := by decide
    simpa [List.replicate_succ, parseHexCore, h0] using ih

theorem parseHex_of_ne_nil (s : List Char) (h : s ≠ []) :
    parseHex s = parseHexCore 0 s := by
  cases s with
  | nil => exact absurd rfl h
  | cons c rest => rfl

theorem take_append_of_length_eq {α : Type} {l1 l2 : List α} {n : Nat}
    (h : l1.length = n) : (l1 ++ l2).take n = l1 := by
  subst h
  exact List.take_left l1 l2

theorem drop_append_of_length_eq {α : Type} {l1 l2 : List α} {n : Nat}
    (h : l1.length = n) : (l1 ++ l2).drop n = l2 := by
  subst h
  exact List.drop_left l1 l2

theorem digits_length_le_of_lt_pow {u k : Nat} (h : u < 16 ^ k) :
    (Nat.digits 16 u).length ≤ k := by
  by_cases h0 : u = 0
  · subst h0; simp
  · by_contra hlen
    have hk : k + 1 ≤ (Nat.digits 16 u).length := by omega
    have h1 : (16 : Nat) ^ (Nat.digits 16 u).length ≤ 16 * u :=
      Nat.base_pow_length_digits_le 16 u (by norm_num) h0
    have h2 : (16 : Nat) ^ (k + 1) ≤ 16 ^ (Nat.digits 16 u).length :=
      Nat.pow_le_pow_right (by norm_num) hk
    have h3 : 16 * 16 ^ k ≤ 16 * u := by
      calc 16 * 16 ^ k = 16 ^ (k + 1) := by ring
        _ ≤ 16 ^ (Nat.digits 16 u).length := h2
        _ ≤ 16 * u := h1
    omega

/-- Round trip of one 32-bit field against an arbitrary stream suffix:
decoding `_int_to_str(n, 32)` recovers `n` and leaves the suffix. -/
theorem read_int_frame (n : Int) (rest : List Char)
    (h1 : -(2 ^ 31) ≤ n) (h2 : n < 2 ^ 31) :
    read_int (int_to_str n 32 ++ rest) = (Except.ok n, rest) := by
  have hshift : ((1 <<< 32 : Nat) : Int) = 2 ^ 32 := by
    norm_num [Nat.shiftLeft_eq]
  have hmax : INTEGER_MAX_VALUE = 2 ^ 31 - 1 := by
    norm_num [INTEGER_MAX_VALUE, Nat.shiftLeft_eq]
  rw [int_to_str]
  rw [hshift]
  set i : Int := if n < 0 then n + 2 ^ 32 else n with hi
  have hcast : (i.toNat : Int) = i ∧ i.toNat < 2 ^ 32 := by
    constructor
    · rw [hi]; split_ifs <;> omega
    · rw [hi]; split_ifs <;> omega
  set u : Nat := i.toNat with hu
  have hu32 : u < 16 ^ 8 := by
    have : (16 : Nat) ^ 8 = 2 ^ 32 := by norm_num
    omega
  have hloop : int_to_str_loop u 0 32
      = (Nat.digits 16 u).map (fun d => DIGIT_CHARS.getD d '?') :=
    int_to_str_loop_eq_digits 8 u 0 32 hu32 (by norm_num)
  have hlen : (Nat.digits 16 u).length ≤ 8 := digits_length_le_of_lt_pow hu32
  have h8 : (32 : Nat) >>> 2 = 8 := by decide
  rw [hloop, h8]
  set ds : List Char := ((Nat.digits 16 u).map fun d => DIGIT_CHARS.getD d '?').reverse
    with hds
  have hdslen : ds.length ≤ 8 := by
    rw [hds]; simpa using hlen
  have hslen : (zfill ds 8).length = 8 := by
    rw [zfill, List.length_append, List.length_replicate]
    omega
  have htake : ((zfill ds 8) ++ rest).take 8 = zfill ds 8 :=
    take_append_of_length_eq hslen
  have hdrop : ((zfill ds 8) ++ rest).drop 8 = rest :=
    drop_append_of_length_eq hslen
  have hparse : parseHex (zfill ds 8) = some u := by
    have hne : zfill ds 8 ≠ [] := by
      intro hcon
      have := congrArg List.length hcon
      rw [hslen] at this
      simp at this
    rw [parseHex_of_ne_nil _ hne, zfill, parseHexCore_zeros, hds,
      parseHexCore_mapped_digits (Nat.digits 16 u) 0
        (fun d hd => Nat.digits_lt_base (by norm_num) hd),
      Nat.ofDigits_digits]
    simp
  have hval : (if u > INTEGER_MAX_VALUE then (u : Int) - ((1 <<< 32 : Nat) : Int)
      else (u : Int)) = n := by
    rw [hshift, hmax]
    have hiu : (u : Int) = i := hcast.1
    rw [hi] at hiu
    split_ifs at hiu ⊢ <;> omega
  simp only [read_int, htake, hdrop, hparse, hval]

/-- Round trip of a length-prefixed string frame against an arbitrary
stream suffix. -/
theorem read_str_frame (s rest : List Char) (h : s.length < 2 ^ 31) :
    read_str (str_frame s ++ rest) = (Except.ok s, rest) := by
  have hlow : -(2 ^ 31) ≤ (s.length : Int) :=
    le_trans (by norm_num) (Int.natCast_nonneg s.length)
  have hri := read_int_frame (s.length : Int) (s ++ rest) hlow (by exact_mod_cast h)
  rw [str_frame, List.append_assoc]
  have hneg : ¬((s.length : Int) < 0) := by
    simp
  simp only [read_str, hri, if_neg hneg, Int.toNat_natCast,
    take_append_of_length_eq rfl, drop_append_of_length_eq rfl]

theorem response_loop_nil (st : SessionState) :
    response_loop st [] = ⟨clearedSession, [], [], .ok .none⟩ := by
  rw [response_loop]

theorem response_loop_shutdown_tag (st : SessionState) (rest : List Char) :
    response_loop st ('0' :: rest) = ⟨clearedSession, rest, [], .ok .none⟩ := by
  rw [response_loop]
  simp only [show base36DigitVal '0' = some 0 from by decide,
    show j2pyCommandOfValue 0 = some J2PyCommand.SHUTDOWN from rfl]

theorem response_loop_error_frame (st : SessionState) (rest s t m : List Char)
    (hlen : s.length < 2 ^ 31) (hsplit : splitColonSpace s = some (t, m)) :
    response_loop st ('3' :: (str_frame s ++ rest))
      = ⟨st, rest, [], .error (.javaException t m)⟩ := by
  rw [response_loop]
  simp only [show base36DigitVal '3' = some 3 from by decide,
    show j2pyCommandOfValue 3 = some J2PyCommand.ERROR_RESULT from rfl,
    read_str_frame s rest hlen, hsplit]

/-- C1: for every 32-bit signed integer `n` (both bounds and all negative
values included), `_read_int` applied to the 8-character fixed-width
lowercase-hex output of `_int_to_str(n, 32)` yields `n` back, consuming
the whole field. -/
theorem c1_int32_roundtrip (n : Int) (h1 : -(2 ^ 31) ≤ n) (h2 : n < 2 ^ 31) :
    read_int (int_to_str n 32) = (Except.ok n, []) := by
  have h := read_int_frame n [] h1 h2
  simpa using h

/-- Witness for C1 at both 32-bit bounds. -/
theorem c1_int32_roundtrip_witness :
    (-(2 ^ 31) ≤ (-(2 ^ 31) : Int)
      ∧ read_int (int_to_str (-(2 ^ 31)) 32) = (Except.ok (-(2 ^ 31)), []))
    ∧ ((2 ^ 31 - 1 : Int) < 2 ^ 31
      ∧ read_int (int_to_str (2 ^ 31 - 1) 32) = (Except.ok (2 ^ 31 - 1), [])) :=
  ⟨⟨by norm_num, c1_int32_roundtrip _ (by norm_num) (by norm_num)⟩,
   ⟨by norm_num, c1_int32_roundtrip _ (by norm_num) (by norm_num)⟩⟩

/-- C2: a response that is an ERROR_RESULT frame carrying the payload
`"IllegalArgumentException: bad arg"` makes the dispatch loop raise a
`JavaException` whose `type` field is `IllegalArgumentException` and whose
message is `bad arg`, and the session is not torn down: the returned state
is exactly the incoming `st` (same live-process flag, same four caches). -/
theorem c2_error_result_structured_fault (st : SessionState) (rest : List Char) :
    response_loop st
        ('3' :: (str_frame "IllegalArgumentException: bad arg".toList ++ rest))
      = ⟨st, rest, [],
         .error (.javaException "IllegalArgumentException".toList "bad arg".toList)⟩ :=
  response_loop_error_frame st rest _ _ _ (by decide) (by decide)

/-- C3: host integer `5` (and any host integer `n`) marshalled against
declared type `double` becomes a primitive of `double`'s wire type id (-8)
carrying `float(n)`; against `java.lang.Object` or with no declared type it
becomes a primitive of `int`'s wire type id (-5) carrying `n` unchanged. -/
theorem c3_primitive_marshalling :
    (∀ n : Int,
      pyobject_to_jobject (.int n) (some jdouble)
          = .pure (.primitiveProxy jdouble.object_index (.f (n : ℚ)))
        ∧ pyobject_to_jobject (.int n) (some jObject)
          = .pure (.primitiveProxy jint.object_index (.i n))
        ∧ pyobject_to_jobject (.int n) none
          = .pure (.primitiveProxy jint.object_index (.i n)))
    ∧ pyobject_to_jobject (.int 5) (some jdouble)
        = .pure (.primitiveProxy (-8) (.f (5 : ℚ)))
    ∧ pyobject_to_jobject (.int 5) (some jObject)
        = .pure (.primitiveProxy (-5) (.i 5))
    ∧ pyobject_to_jobject (.int 5) none
        = .pure (.primitiveProxy (-5) (.i 5)) := by
  refine ⟨fun n => ⟨rfl, rfl, rfl⟩, by decide, by decide, by decide⟩

/-- C4: after resolving method `mname` on class `C` with parameter types
`types1`, re-resolving the same name with any other parameter-type list
returns the identical first-resolved `MethodProxy` with no GET_METHOD
request and no state change, because `_loaded_methods` is keyed by
`(owner, name)` only; the first resolution did send GET_METHOD. -/
theorem c4_overload_cache_by_name (st : SessionState) (C : ClassProxy)
    (mname : String) (types1 types2 : List ClassProxy) (id1 id2 : Int)
    (h : alookup st.loaded_methods (C.object_index, mname) = none) :
    ClassProxy.get_method (ClassProxy.get_method st C mname types1 id1).2.1 C mname
        types2 id2
      = ((ClassProxy.get_method st C mname types1 id1).1,
         (ClassProxy.get_method st C mname types1 id1).2.1, none)
    ∧ (ClassProxy.get_method st C mname types1 id1).1 = ⟨C, mname, id1, types1⟩
    ∧ (ClassProxy.get_method st C mname types1 id1).2.2
        = some ⟨C.object_index, mname, types1.map (·.object_index)⟩ := by
  simp [ClassProxy.get_method, h, dictInsert, alookup]

/-- Witness for C4: a fresh state, class id 1, first resolution with
`[jint]`, second with `[jString]`. -/
theorem c4_overload_cache_by_name_witness :
    alookup (SessionState.mk true [] [] [] []).loaded_methods
        ((1 : Int), "foo") = none
    ∧ ClassProxy.get_method
        (ClassProxy.get_method ⟨true, [], [], [], []⟩ ⟨"java.util.ArrayList", 1⟩
          "foo" [jint] 42).2.1
        ⟨"java.util.ArrayList", 1⟩ "foo" [jString] 99
      = ((ClassProxy.get_method ⟨true, [], [], [], []⟩ ⟨"java.util.ArrayList", 1⟩
            "foo" [jint] 42).1,
         (ClassProxy.get_method ⟨true, [], [], [], []⟩ ⟨"java.util.ArrayList", 1⟩
            "foo" [jint] 42).2.1, none) :=
  ⟨rfl,
   (c4_overload_cache_by_name ⟨true, [], [], [], []⟩ ⟨"java.util.ArrayList", 1⟩
      "foo" [jint] [jString] 42 99 rfl).1⟩

/-- C5: after the dispatch loop consumes a SHUTDOWN tag (or hits end of
stream), the resulting state is the cleared one — all four caches empty
and the session inactive — and `class_for_name` on any non-built-in name
then misses the cache and issues a fresh GET_CLASS request. -/
theorem c5_shutdown_clears_state (st : SessionState) (rest : List Char)
    (name : String) (h : alookup DEFAULT_CLASSES name = none) :
    (response_loop st ('0' :: rest)).state = clearedSession
    ∧ (response_loop st []).state = clearedSession
    ∧ clearedSession.java_popen = false
    ∧ clearedSession.loaded_classes = []
    ∧ clearedSession.loaded_classes_by_id = []
    ∧ clearedSession.loaded_methods = []
    ∧ clearedSession.loaded_objects = []
    ∧ class_for_name (response_loop st ('0' :: rest)).state name
        = .sendGetClass name
    ∧ class_for_name (response_loop st []).state name = .sendGetClass name := by
  refine ⟨by rw [response_loop_shutdown_tag], by rw [response_loop_nil],
    rfl, rfl, rfl, rfl, rfl, ?_, ?_⟩
  · rw [response_loop_shutdown_tag]
    show class_for_name clearedSession name = ClassForNameResult.sendGetClass name
    simp only [class_for_name, h]
    rfl
  · rw [response_loop_nil]
    show class_for_name clearedSession name = ClassForNameResult.sendGetClass name
    simp only [class_for_name, h]
    rfl

/-- Witness for C5: a session holding a cached class `com.example.Widget`
receives SHUTDOWN; re-resolving that very name then issues GET_CLASS. -/
theorem c5_shutdown_clears_state_witness :
    alookup DEFAULT_CLASSES "com.example.Widget" = none
    ∧ class_for_name
        (response_loop
          ⟨true, [("com.example.Widget", ⟨"com.example.Widget", 7⟩)],
           [((7 : Int), ⟨"com.example.Widget", 7⟩)], [], []⟩
          ('0' :: [])).state "com.example.Widget"
        = .sendGetClass "com.example.Widget" :=
  ⟨by decide,
   (c5_shutdown_clears_state
      ⟨true, [("com.example.Widget", ⟨"com.example.Widget", 7⟩)],
       [((7 : Int), ⟨"com.example.Widget", 7⟩)], [], []⟩
      [] "com.example.Widget" (by decide)).2.2.2.2.2.2.2.1⟩

/-- C6 counterexample: the claim asserts every sentinel id lies in the
reserved space of ids `≤ -12`, but the built-in class `byte` (id -1),
passed as a value, marshals to the arbitrary-temporary id `-9 = -1 - 8`,
which is not `≤ -12`. -/
theorem c6_sentinel_counterexample :
    pyobject_to_jobject (.classProxy jbyte) none
        = .pure (.arbitraryTemporaryProxy (-9))
    ∧ ¬((-9 : Int) ≤ -12) :=
  ⟨by decide, by decide⟩

/-- C6 amended: every negative-id (built-in) ClassHandle used as a value is
replaced by an arbitrary-temporary handle whose id is the class id offset
by -8; the sentinel lies in the reserved space `≤ -12` exactly for class
ids `≤ -4`, while byte (-1), boolean (-2) and short (-3) yield sentinels
-9, -10, -11 above that space. -/
theorem c6_sentinel_offset_amended (c : ClassProxy) (pref : Option ClassProxy)
    (h : c.object_index < 0) :
    pyobject_to_jobject (.classProxy c) pref
        = .pure (.arbitraryTemporaryProxy (c.object_index - 8))
    ∧ (c.object_index ≤ -4 → c.object_index - 8 ≤ -12)
    ∧ (-3 ≤ c.object_index → -11 ≤ c.object_index - 8) := by
  refine ⟨?_, by omega, by omega⟩
  simp [pyobject_to_jobject, h]

/-- Witness for C6 amended, at the built-in class `int` (id -5). -/
theorem c6_sentinel_offset_amended_witness :
    jint.object_index < 0
    ∧ pyobject_to_jobject (.classProxy jint) none
        = .pure (.arbitraryTemporaryProxy (jint.object_index - 8)) :=
  ⟨by decide, (c6_sentinel_offset_amended jint none (by decide)).1⟩

theorem free_object_attempt_spec (st : SessionState) (ix : Int)
    (stdout : List Char) :
    (free_object_attempt st ix stdout).raised = false
    ∧ (st.java_popen = false
        → (free_object_attempt st ix stdout).free_requested = none) := by
  constructor
  · by_cases hpop : st.java_popen
    · unfold free_object_attempt
      rw [if_pos hpop]
      cases hres : (response_loop st stdout).result with
      | error e => simp [hres]
      | ok r => simp [hres]
    · unfold free_object_attempt
      rw [if_neg hpop]
  · intro hp
    unfold free_object_attempt
    rw [if_neg (by simp [hp])]

/-- C7: releasing any non-primitive handle never propagates a fault to the
caller of the release (`raised = false` for every state and every response
stream, i.e. whatever `_execute_command` raises is swallowed), and when no
live session exists (`_java_popen is None`) no FREE_OBJECT request is
attempted at all. -/
theorem c7_release_never_raises (st : SessionState) (i : Int) (c : ClassProxy)
    (m : MethodProxy) (o : ObjectProxy) (stdout : List Char) :
    ((AbstractObjectProxy.del st i stdout).raised = false
      ∧ (st.java_popen = false
          → (AbstractObjectProxy.del st i stdout).free_requested = none))
    ∧ ((ClassProxy.del st c stdout).raised = false
      ∧ (st.java_popen = false
          → (ClassProxy.del st c stdout).free_requested = none))
    ∧ ((MethodProxy.del st m stdout).raised = false
      ∧ (st.java_popen = false
          → (MethodProxy.del st m stdout).free_requested = none))
    ∧ ((ObjectProxy.del st o stdout).raised = false
      ∧ (st.java_popen = false
          → (ObjectProxy.del st o stdout).free_requested = none)) := by
  exact ⟨⟨(free_object_attempt_spec _ _ _).1,
      fun hp => (free_object_attempt_spec _ _ _).2 hp⟩,
    ⟨(free_object_attempt_spec _ _ _).1,
      fun hp => (free_object_attempt_spec _ _ _).2 hp⟩,
    ⟨(free_object_attempt_spec _ _ _).1,
      fun hp => (free_object_attempt_spec _ _ _).2 hp⟩,
    ⟨(free_object_attempt_spec _ _ _).1,
      fun hp => (free_object_attempt_spec _ _ _).2 hp⟩⟩

/-- Witness for C7: releasing against a torn-down session (the cleared
state) raises nothing and attempts no FREE_OBJECT request. -/
theorem c7_release_never_raises_witness :
    (AbstractObjectProxy.del clearedSession 3 []).raised = false
    ∧ (AbstractObjectProxy.del clearedSession 3 []).free_requested = none
    ∧ (ObjectProxy.del clearedSession ⟨3, none⟩ []).free_requested = none :=
  ⟨(c7_release_never_raises clearedSession 3 jint ⟨jint, "m", 1, []⟩ ⟨3, none⟩
      []).1.1,
   (c7_release_never_raises clearedSession 3 jint ⟨jint, "m", 1, []⟩ ⟨3, none⟩
      []).1.2 rfl,
   (c7_release_never_raises clearedSession 3 jint ⟨jint, "m", 1, []⟩ ⟨3, none⟩
      []).2.2.2.2 rfl⟩

theorem zip_take_length {α β : Type} (xs : List α) (ys : List β) :
    xs.zip ys = (xs.take ys.length).zip ys := by
  induction xs generalizing ys with
  | nil => simp
  | cons x xs ih =>
    cases ys with
    | nil => simp
    | cons y ys => simp [ih]

theorem buildSendArgs_length (l : List (PyObject × ClassProxy)) (r : List SendArg)
    (h : buildSendArgs l = .ok r) : r.length = l.length := by
  induction l generalizing r with
  | nil =>
    simp only [buildSendArgs] at h
    cases h
    rfl
  | cons p rest ih =>
    obtain ⟨a, t⟩ := p
    simp only [buildSendArgs] at h
    cases hm : pyobject_to_jobject a (some t) with
    | error e => rw [hm] at h; exact absurd h (by simp)
    | pure j =>
      rw [hm] at h
      cases hb : buildSendArgs rest with
      | error e => rw [hb] at h; exact absurd h (by simp)
      | ok l2 =>
        rw [hb] at h
        cases h
        simp [ih l2 hb]
    | createString s =>
      rw [hm] at h
      cases hb : buildSendArgs rest with
      | error e => rw [hb] at h; exact absurd h (by simp)
      | ok l2 =>
        rw [hb] at h
        cases h
        simp [ih l2 hb]

/-- C8: when more arguments are supplied than declared parameter types,
invoking (statically or on an instance) marshals exactly the first
`len(types)` arguments — the whole request equals the one built from the
truncated argument list, so the trailing arguments are dropped without an
error and contribute no bytes — and on success the argument-count field of
the request is `len(types)`. -/
theorem c8_trailing_args_dropped (m : MethodProxy) (on_index : Int)
    (args : List PyObject) (h : m.types.length ≤ args.length) :
    MethodProxy.invoke_static m args
        = MethodProxy.invoke_static m (args.take m.types.length)
    ∧ MethodProxy.invoke_instance m on_index args
        = MethodProxy.invoke_instance m on_index (args.take m.types.length)
    ∧ (∀ r, MethodProxy.invoke_static m args = .ok r → r.2.1 = m.types.length)
    ∧ (∀ r, MethodProxy.invoke_instance m on_index args = .ok r
        → r.2.2.1 = m.types.length) := by
  have hzip : args.zip m.types = (args.take m.types.length).zip m.types :=
    zip_take_length args m.types
  refine ⟨?_, ?_, ?_, ?_⟩
  · simp only [MethodProxy.invoke_static, hzip]
  · simp only [MethodProxy.invoke_instance, hzip]
  · intro r hr
    simp only [MethodProxy.invoke_static] at hr
    cases hb : buildSendArgs (args.zip m.types) with
    | error e => rw [hb] at hr; exact absurd hr (by simp)
    | ok sa =>
      rw [hb] at hr
      cases hr
      have hlen := buildSendArgs_length _ _ hb
      simp only [List.length_zip] at hlen
      show sa.length = m.types.length
      omega
  · intro r hr
    simp only [MethodProxy.invoke_instance] at hr
    cases hb : buildSendArgs (args.zip m.types) with
    | error e => rw [hb] at hr; exact absurd hr (by simp)
    | ok sa =>
      rw [hb] at hr
      cases hr
      have hlen := buildSendArgs_length _ _ hb
      simp only [List.length_zip] at hlen
      show sa.length = m.types.length
      omega

/-- Witness for C8: a one-parameter method invoked with two arguments. -/
theorem c8_trailing_args_dropped_witness :
    ((⟨jObject, "foo", 9, [jint]⟩ : MethodProxy).types.length
        ≤ ([PyObject.int 1, PyObject.int 2] : List PyObject).length)
    ∧ MethodProxy.invoke_static ⟨jObject, "foo", 9, [jint]⟩
        [PyObject.int 1, PyObject.int 2]
      = MethodProxy.invoke_static ⟨jObject, "foo", 9, [jint]⟩
          ([PyObject.int 1, PyObject.int 2].take
            (⟨jObject, "foo", 9, [jint]⟩ : MethodProxy).types.length) :=
  ⟨by decide,
   (c8_trailing_args_dropped ⟨jObject, "foo", 9, [jint]⟩ 0
      [PyObject.int 1, PyObject.int 2] (by decide)).1⟩

/-- C9 counterexample: the claim asserts a short read (fewer than 8
characters available) fails with a fault rather than returning an integer,
but on the stream holding exactly the 4 characters `00ff` at end of
stream, `_read_int` silently returns 255. -/
theorem c9_short_read_counterexample :
    ("00ff".toList.length < 8)
    ∧ read_int "00ff".toList = (Except.ok 255, []) :=
  ⟨by decide, rfl⟩

theorem hexDigitVal_lt (c : Char) (d : Nat) (h : hexDigitVal c = some d) :
    d < 16 := by
  rw [hexDigitVal] at h
  split_ifs at h <;> simp_all <;> omega

theorem parseHexCore_lt (s : List Char) :
    ∀ acc v : Nat, parseHexCore acc s = some v → v < (acc + 1) * 16 ^ s.length := by
  induction s with
  | nil =>
    intro acc v h
    simp only [parseHexCore] at h
    cases h
    simp
  | cons c rest ih =>
    intro acc v h
    simp only [parseHexCore] at h
    cases hc : hexDigitVal c with
    | none => rw [hc] at h; exact absurd h (by simp)
    | some d =>
      rw [hc] at h
      have hd : d < 16 := hexDigitVal_lt c d hc
      have hrec := ih (acc * 16 + d) v h
      have hmono : (acc * 16 + d + 1) * 16 ^ rest.length
          ≤ ((acc + 1) * 16) * 16 ^ rest.length :=
        Nat.mul_le_mul_right _ (by omega)
      calc v < (acc * 16 + d + 1) * 16 ^ rest.length := hrec
        _ ≤ ((acc + 1) * 16) * 16 ^ rest.length := hmono
        _ = (acc + 1) * 16 ^ (c :: rest).length := by
            simp [List.length_cons]
            ring

/-- C9 amended: a read that yields zero characters makes `_read_int` raise
a `ValueError` (python `int` rejects the empty string) rather than return
an integer, but a short read of 1–7 hex characters at end of stream is
silently decoded as their (nonnegative) value — the code does not treat a
partial 32-bit field as a transport fault. -/
theorem c9_short_read_amended (s : List Char) (v : Nat)
    (h1 : s.length ≤ 7) (h2 : parseHex s = some v) :
    read_int []
        = (Except.error (.valueError "invalid literal for int() with base 16"), [])
    ∧ read_int s = (Except.ok (v : Int), [])
    ∧ (0 : Int) ≤ (v : Int) := by
  refine ⟨rfl, ?_, by positivity⟩
  have htake : s.take 8 = s := List.take_of_length_le (by omega)
  have hbound : v < 16 ^ s.length := by
    have hne : s ≠ [] := by
      intro hcon
      subst hcon
      simp [parseHex] at h2
    rw [parseHex_of_ne_nil s hne] at h2
    have := parseHexCore_lt s 0 v h2
    simpa using this
  have hmax : ¬(v > INTEGER_MAX_VALUE) := by
    have hpow : (16 : Nat) ^ s.length ≤ 16 ^ 7 :=
      Nat.pow_le_pow_right (by norm_num) h1
    have hM : INTEGER_MAX_VALUE = 2 ^ 31 - 1 := by
      norm_num [INTEGER_MAX_VALUE, Nat.shiftLeft_eq]
    have h167 : (16 : Nat) ^ 7 = 268435456 := by norm_num
    omega
  have hdrop : s.drop 8 = [] := List.drop_eq_nil_of_le (by omega)
  simp only [read_int, htake, h2, hdrop, if_neg hmax]

/-- Witness for C9 amended at the 4-character stream `00ff`. -/
theorem c9_short_read_amended_witness :
    ("00ff".toList.length ≤ 7) ∧ parseHex "00ff".toList = some 255
    ∧ read_int "00ff".toList = (Except.ok ((255 : Nat) : Int), []) :=
  ⟨by decide, by decide,
   (c9_short_read_amended "00ff".toList 255 (by decide) (by decide)).2.1⟩

/-- C10: marshalling a numeric value whose declared parameter type is a
reference class other than `java.lang.Object` — `java.lang.String` (-10),
`java.lang.Class` (-11), or any remotely resolved class (id ≥ 0) — raises
the unsupported-type `ValueError`, and an invocation with such an argument
therefore fails before any INVOKE request is produced. -/
theorem c10_reference_typed_number_faults (pt : ClassProxy) (n : Int) (q : ℚ)
    (owner : ClassProxy) (mname : String) (mid on_index : Int)
    (h : 0 ≤ pt.object_index ∨ pt.object_index = -10 ∨ pt.object_index = -11) :
    pyobject_to_jobject (.int n) (some pt)
        = .error "Currently unsupported type: int"
    ∧ pyobject_to_jobject (.float q) (some pt)
        = .error "Currently unsupported type: float"
    ∧ MethodProxy.invoke_static ⟨owner, mname, mid, [pt]⟩ [.int n]
        = .error "Currently unsupported type: int"
    ∧ MethodProxy.invoke_instance ⟨owner, mname, mid, [pt]⟩ on_index [.int n]
        = .error "Currently unsupported type: int" := by
  have hne : abstractEqProxy pt jObject = false := by
    simp only [abstractEqProxy, jObject]
    exact beq_false_of_ne (by omega)
  have hnf : intInProxyTuple pt.object_index [jfloat, jdouble] = false := by
    simp only [intInProxyTuple, List.any_cons, List.any_nil, jfloat, jdouble]
    rw [beq_false_of_ne (show (-6 : Int) ≠ pt.object_index by omega),
      beq_false_of_ne (show (-8 : Int) ≠ pt.object_index by omega)]
    rfl
  have hni : ¬(0 > pt.object_index ∧ pt.object_index > jdouble.object_index) := by
    simp only [jdouble]
    omega
  have h1 : pyobject_to_jobject (.int n) (some pt)
      = .error "Currently unsupported type: int" := by
    simp [pyobject_to_jobject, pyobject_to_jobject_numeric, hne, hnf, hni]
  have h2 : pyobject_to_jobject (.float q) (some pt)
      = .error "Currently unsupported type: float" := by
    simp [pyobject_to_jobject, pyobject_to_jobject_numeric, hne, hnf, hni]
  refine ⟨h1, h2, ?_, ?_⟩
  · simp [MethodProxy.invoke_static, buildSendArgs, h1]
  · simp [MethodProxy.invoke_instance, buildSendArgs, h1]

/-- Witness for C10 at declared type `java.lang.String` and value `5`. -/
theorem c10_reference_typed_number_faults_witness :
    (0 ≤ jString.object_index ∨ jString.object_index = -10
      ∨ jString.object_index = -11)
    ∧ pyobject_to_jobject (.int 5) (some jString)
        = .error "Currently unsupported type: int" :=
  ⟨by decide,
   (c10_reference_typed_number_faults jString 5 0 jObject "m" 1 2 (by decide)).1⟩

end PyJava
